import Mathlib

/-!
Verification of the pyatak ticket API (src/app.py).

Shallow embedding conventions:
* Timestamps are UTC instants modelled as `Int` (seconds since the epoch).
* Nullable database columns and absent JSON fields are `Option`.
* The persistent store is the list of committed `Ticket` rows plus the next
  primary key; an operation's resulting `Store` is the state reached through
  `db.session.commit()` calls (mutations on an ORM object that are never
  committed are rolled back at request teardown and do not reach the store).
* Outbound Telegram calls are pure oracles: a `sendMessage` call is summarised
  by the optional `(chat id, message id)` pair the code would record from a
  successful response; every failure mode (no HTTP answer, non-ok payload,
  missing result fields) is `none`, matching the code paths in `tg_api` and
  `send_ticket_to_tg` that record nothing.
-/

namespace Pyatak

/-- str.strip(): drop leading and trailing whitespace.  Implemented over the
character list so that it evaluates inside the kernel. -/
def pyStrip (s : String) : String :=
  String.mk (((s.data.dropWhile Char.isWhitespace).reverse.dropWhile
    Char.isWhitespace).reverse)

/-- str.startswith(pre). -/
def pyStartsWith (s pre : String) : Bool :=
  pre.data.isPrefixOf s.data

/-- str.isdigit() for the ASCII ids used here: nonempty and all digits. -/
def pyIsDigit (s : String) : Bool :=
  !s.data.isEmpty && s.data.all Char.isDigit

/-- Numeric value of a digit string. -/
def digitsVal (cs : List Char) : Nat :=
  cs.foldl (fun n c => 10 * n + (c.toNat - 48)) 0

/-- Parse a nonempty all-digit character list. -/
def digits? (cs : List Char) : Option Nat :=
  if !cs.isEmpty && cs.all Char.isDigit then some (digitsVal cs) else none

/-- int(s) on a decimal literal with optional sign and surrounding
whitespace; `none` models the ValueError branch.  (Separators such as `_`
inside Python integer literals are not modelled; no input here uses them.) -/
def pyInt? (s : String) : Option Int :=
  match (pyStrip s).data with
  | '-' :: cs => (digits? cs).map (fun n => -(n : Int))
  | '+' :: cs => (digits? cs).map (fun n => (n : Int))
  | cs => (digits? cs).map (fun n => (n : Int))

/-- Accumulator pass of str.split() with no argument: split on whitespace
runs, dropping empty pieces. -/
def pyWordsAux : List Char → List Char → List String
  | [], acc => if acc.isEmpty then [] else [String.mk acc.reverse]
  | c :: cs, acc =>
    if c.isWhitespace then
      if acc.isEmpty then pyWordsAux cs []
      else String.mk acc.reverse :: pyWordsAux cs []
    else pyWordsAux cs (c :: acc)

/-- str.split() with no argument. -/
def pySplitWs (s : String) : List String :=
  pyWordsAux s.data []

/-- Split a character list at the first occurrence of `c`. -/
def breakAtChar (c : Char) : List Char → Option (List Char × List Char)
  | [] => none
  | x :: xs =>
    if x = c then some ([], xs)
    else (breakAtChar c xs).map (fun p => (x :: p.1, p.2))

/-- data.split(":", 2): at most two splits, a third field keeps any further
colons. -/
def splitColon2 (s : String) : List String :=
  match breakAtChar ':' s.data with
  | none => [s]
  | some (a, rest) =>
    match breakAtChar ':' rest with
    | none => [String.mk a, String.mk rest]
    | some (b, c) => [String.mk a, String.mk b, String.mk c]

/-- Ticket row, mirroring the columns of `class Ticket(db.Model)`
(src/app.py:55-68).  `status` is stored as a raw string, as in the table;
`tg_chat_id` / `tg_message_id` are the recorded Telegram message reference. -/
structure Ticket where
  id : Int
  club : String
  pc : Option String
  description : String
  status : String
  deadline_at : Option Int
  created_at : Int
  updated_at : Int
  tg_chat_id : Option Int
  tg_message_id : Option Int
deriving DecidableEq

/-- The tickets table plus the autoincrement counter the store uses to assign
primary keys on insert. -/
structure Store where
  tickets : List Ticket
  nextId : Int
deriving DecidableEq

/-- Environment configuration read at startup (src/app.py:37-43).  Empty
string models an unset variable, as the code strips and tests truthiness. -/
structure Config where
  telegram_bot_token : String
  telegram_chat_id : String
  telegram_webhook_secret : String
  cron_secret : String
deriving DecidableEq

/-- db.session.get(Ticket, sid): first row with the given primary key. -/
def dbGet (st : Store) (sid : Int) : Option Ticket :=
  st.tickets.find? (fun t => t.id == sid)

/-- Committing a mutated row: every stored row with the same primary key is
replaced by the new value. -/
def dbUpdate (st : Store) (t : Ticket) : Store :=
  { st with tickets := st.tickets.map (fun u => if u.id == t.id then t else u) }

/-- Outcome of one `sendMessage` round trip, as consumed by
`send_ticket_to_tg` (src/app.py:166-177): `some (cid, mid)` when the reply is
a dict with `ok` and a `result` carrying `chat.id` and `message_id`;
`none` for every other outcome (request exception, non-200, malformed body),
in which case nothing is recorded. -/
abbrev TgSendResult := Option (Int × Int)

/-- send_ticket_to_tg (src/app.py:158-179): skipped when the bot token or the
target chat is unconfigured; on a successful send the message reference is
stored on the row and committed.  Returns the (possibly updated) row and the
store. -/
def send_ticket_to_tg (cfg : Config) (st : Store) (t : Ticket)
    (res : TgSendResult) : Ticket × Store :=
  if cfg.telegram_bot_token = "" then (t, st)
  else if cfg.telegram_chat_id = "" then (t, st)
  else
    match res with
    | none => (t, st)
    | some (cid, mid) =>
      let t2 := { t with tg_chat_id := some cid, tg_message_id := some mid }
      (t2, dbUpdate st t2)

/-- Asia/Almaty is UTC+5 with no daylight saving. -/
def almatyOffset : Int := 5 * 3600

/-- 23:59:00 of the Almaty-local calendar day containing the local instant
`localSec`, as produced by `.replace(hour=23, minute=59, second=0)`. -/
def endOfLocalDay (localSec : Int) : Int :=
  (localSec.ediv 86400) * 86400 + 23 * 3600 + 59 * 60

/-- Deadline computation of create_ticket (src/app.py:240-248): the `due`
shortcut maps to 23:59 local time today / tomorrow / in three days, converted
back to UTC; any other value (including empty) yields no deadline. -/
def dueDeadline (due : String) (now : Int) : Option Int :=
  if due = "today" then
    some (endOfLocalDay (now + almatyOffset) - almatyOffset)
  else if due = "tomorrow" then
    some (endOfLocalDay (now + almatyOffset + 86400) - almatyOffset)
  else if due = "3days" then
    some (endOfLocalDay (now + almatyOffset + 3 * 86400) - almatyOffset)
  else none

/-- JSON body of POST /api/tickets; each field may be absent.  A JSON `null`
behaves like an absent field because the code coalesces with `or ""`. -/
structure CreateReq where
  club : Option String
  pc : Option String
  description : Option String
  due : Option String
deriving DecidableEq

/-- Response of POST /api/tickets: 400 with an error body, or 201 with the
created ticket serialised. -/
inductive CreateResp
  | badRequest
  | created (t : Ticket)
deriving DecidableEq

/-- create_ticket (src/app.py:228-263): trims the string fields, rejects a
blank club or description with 400, computes the deadline, inserts the row
with status "new", commits, then attempts the Telegram notification (whose
outcome `res` never affects the 201 response). -/
def create_ticket (cfg : Config) (st : Store) (req : CreateReq) (now : Int)
    (res : TgSendResult) : CreateResp × Store :=
  let club := pyStrip (req.club.getD "")
  let pc := pyStrip (req.pc.getD "")
  let description := pyStrip (req.description.getD "")
  let due := pyStrip (req.due.getD "")
  if club = "" ∨ description = "" then (.badRequest, st)
  else
    let t : Ticket :=
      { id := st.nextId
        club := club
        pc := if pc = "" then none else some pc
        description := description
        status := "new"
        deadline_at := dueDeadline due now
        created_at := now
        updated_at := now
        tg_chat_id := none
        tg_message_id := none }
    let st1 : Store := { tickets := st.tickets ++ [t], nextId := st.nextId + 1 }
    let sent := send_ticket_to_tg cfg st1 t res
    (.created sent.1, sent.2)

/-- Response of POST /api/tickets/(sid)/status: 400 invalid status, 404
unknown id, or 200 with the updated ticket. -/
inductive StatusResp
  | badRequest
  | notFound
  | updated (t : Ticket)
deriving DecidableEq

/-- set_status (src/app.py:266-284): validates the requested status against
new | in_progress | done, 404 when the row is missing, otherwise stores the
new status, refreshes updated_at and commits; the subsequent
edit_ticket_message_in_tg call only talks to Telegram and changes no state. -/
def set_status (cfg : Config) (st : Store) (sid : Int) (body : Option String)
    (now : Int) : StatusResp × Store :=
  let new_status := pyStrip (body.getD "")
  if ¬ (new_status = "new" ∨ new_status = "in_progress" ∨ new_status = "done") then
    (.badRequest, st)
  else
    match dbGet st sid with
    | none => (.notFound, st)
    | some t =>
      let t2 := { t with status := new_status, updated_at := now }
      (.updated t2, dbUpdate st t2)

/-- Insert keeping the newest created_at first. -/
def insertDescByCreated (t : Ticket) : List Ticket → List Ticket
  | [] => [t]
  | u :: us =>
    if u.created_at ≤ t.created_at then t :: u :: us
    else u :: insertDescByCreated t us

/-- order_by(Ticket.created_at.desc()). -/
def sortDescByCreated : List Ticket → List Ticket
  | [] => []
  | t :: ts => insertDescByCreated t (sortDescByCreated ts)

/-- list_tickets (src/app.py:222-225): returns every row ordered by
created_at descending.  The handler reads no query parameter at all, so the
`limitParam` of the request URL is ignored. -/
def list_tickets (st : Store) (limitParam : Option Int) : List Ticket :=
  sortDescByCreated st.tickets

/-- Telegram chat object, with the three fields the code inspects. -/
structure TgChat where
  id : Option Int
  username : Option String
  title : Option String
deriving DecidableEq

/-- Chat object defaulted to an empty dict. -/
def emptyChat : TgChat := { id := none, username := none, title := none }

/-- Telegram message object, with the fields the webhook reads. -/
structure TgMessage where
  chat : Option TgChat
  message_id : Option Int
  text : Option String
deriving DecidableEq

/-- Telegram callback_query object. -/
structure TgCallback where
  message : Option TgMessage
  data : Option String
deriving DecidableEq

/-- Telegram update payload: the webhook dispatches on `message` first, then
`callback_query`. -/
structure TgUpdate where
  message : Option TgMessage
  callback_query : Option TgCallback
deriving DecidableEq

/-- str(chat.get("id", "")): decimal rendering of the id, empty when absent. -/
def chatIdStr (chat : TgChat) : String :=
  match chat.id with
  | none => ""
  | some i => toString i

/-- The helper guarding both webhook branches (src/app.py:195-211): every
chat is allowed when TELEGRAM_CHAT_ID is unset; otherwise the configured
value must equal the chat's decimal id, its @username, or its title (an empty
username or title string is falsy in the source and contributes no variant). -/
def chat_allowed (cfg : Config) (chat : TgChat) : Bool :=
  let expected := cfg.telegram_chat_id
  if expected = "" then true
  else
    let variants :=
      [chatIdStr chat]
        ++ (match chat.username with
            | some u => if u = "" then [] else ["@" ++ u]
            | none => [])
        ++ (match chat.title with
            | some s => if s = "" then [] else [s]
            | none => [])
    variants.contains expected

/-- Shared body of the /done and /work commands (src/app.py:336-369): the
command must have exactly one argument and it must be all digits; a missing
ticket only produces a chat reply; otherwise the status is stored with a
fresh updated_at and committed. -/
def applyCommandStatus (st : Store) (text_in : String) (new_status : String)
    (now : Int) : Store :=
  match pySplitWs text_in with
  | [_, p1] =>
    if pyIsDigit p1 then
      let sid : Int := ((digits? p1.data).getD 0 : Nat)
      match dbGet st sid with
      | none => st
      | some t => dbUpdate st { t with status := new_status, updated_at := now }
    else st
  | _ => st

/-- Webhook responses: every handled update is acknowledged with 200 "ok";
only the shared-secret check produces 403 "forbidden". -/
inductive WebhookResp
  | ok
  | forbidden
deriving DecidableEq

/-- Message branch of the webhook (src/app.py:301-371): a disallowed chat is
acknowledged untouched; /start, /help and /id only reply in chat; /done and
/work run `applyCommandStatus`; anything else falls through to "ok". -/
def handleMessage (cfg : Config) (st : Store) (msg : TgMessage) (now : Int) :
    WebhookResp × Store :=
  let chat := msg.chat.getD emptyChat
  if ¬ chat_allowed cfg chat then (.ok, st)
  else
    let text_in := pyStrip (msg.text.getD "")
    if text_in = "/start" ∨ text_in = "/help" then (.ok, st)
    else if text_in = "/id" then (.ok, st)
    else if pyStartsWith text_in "/done" then
      (.ok, applyCommandStatus st text_in "done" now)
    else if pyStartsWith text_in "/work" then
      (.ok, applyCommandStatus st text_in "in_progress" now)
    else (.ok, st)

/-- Callback branch of the webhook (src/app.py:374-422): disallowed chat,
foreign callback data, malformed token, invalid status and missing ticket
each only answer the callback; a valid press stores the status with a fresh
updated_at and commits (src/app.py:407-409).  The later assignments to
tg_chat_id / tg_message_id (src/app.py:416-419) are not followed by a commit:
they only feed the in-request edit call and are rolled back at teardown, so
the store keeps its prior message reference. -/
def handleCallback (cfg : Config) (st : Store) (cq : TgCallback) (now : Int) :
    WebhookResp × Store :=
  let message := cq.message.getD { chat := none, message_id := none, text := none }
  let chat := message.chat.getD emptyChat
  if ¬ chat_allowed cfg chat then (.ok, st)
  else
    let data := cq.data.getD ""
    if ¬ pyStartsWith data "status:" then (.ok, st)
    else
      match splitColon2 data with
      | [_, sidStr, new_status] =>
        match pyInt? sidStr with
        | none => (.ok, st)
        | some sid =>
          if ¬ (new_status = "in_progress" ∨ new_status = "done") then (.ok, st)
          else
            match dbGet st sid with
            | none => (.ok, st)
            | some t =>
              (.ok, dbUpdate st { t with status := new_status, updated_at := now })
      | _ => (.ok, st)

/-- telegram_webhook (src/app.py:290-424): 403 when a webhook secret is set
and the header differs; otherwise the message branch, then the callback
branch, then a bare "ok". -/
def telegram_webhook (cfg : Config) (st : Store) (secretHeader : String)
    (upd : TgUpdate) (now : Int) : WebhookResp × Store :=
  if cfg.telegram_webhook_secret ≠ "" ∧ secretHeader ≠ cfg.telegram_webhook_secret then
    (.forbidden, st)
  else
    match upd.message with
    | some msg => handleMessage cfg st msg now
    | none =>
      match upd.callback_query with
      | some cq => handleCallback cfg st cq now
      | none => (.ok, st)

/-- Insert keeping the oldest created_at first. -/
def insertAscByCreated (t : Ticket) : List Ticket → List Ticket
  | [] => [t]
  | u :: us =>
    if t.created_at < u.created_at then t :: u :: us
    else u :: insertAscByCreated t us

/-- order_by(Ticket.created_at.asc()). -/
def sortAscByCreated : List Ticket → List Ticket
  | [] => []
  | t :: ts => insertAscByCreated t (sortAscByCreated ts)

/-- Response of GET /cron/remind. -/
inductive CronResp
  | forbidden
  | counted (sent : Nat)
deriving DecidableEq

/-- Due test of the sweep loop (src/app.py:450-457): a ticket needs a
reminder only when it carries a deadline that is already past or lies before
now + 3 hours; a ticket without a deadline never does. -/
def needsReminder (now : Int) (t : Ticket) : Bool :=
  match t.deadline_at with
  | some d => d < now || d < now + 3 * 3600
  | none => false

/-- cron_remind (src/app.py:430-465): 403 on a bad cron secret; otherwise it
scans the rows with status different from "done" in created_at order, and for
every due one edits the original card (pure Telegram traffic) and re-sends the
ticket message, counting the sends.  `res` gives each ticket's send outcome,
keyed by ticket id. -/
def cron_remind (cfg : Config) (st : Store) (secretHeader : String) (now : Int)
    (res : Int → TgSendResult) : CronResp × Store :=
  if cfg.cron_secret ≠ "" ∧ secretHeader ≠ cfg.cron_secret then (.forbidden, st)
  else
    let rows := sortAscByCreated (st.tickets.filter (fun t => t.status ≠ "done"))
    let out := rows.foldl
      (fun (acc : Store × Nat) t =>
        if needsReminder now t then
          ((send_ticket_to_tg cfg acc.1 t (res t.id)).2, acc.2 + 1)
        else acc)
      (st, 0)
    (.counted out.2, out.1)

/-- Pairing invariant on the stored Telegram reference: both halves present or
both absent. -/
def pairedTicket (t : Ticket) : Prop :=
  t.tg_chat_id.isSome = t.tg_message_id.isSome

instance (t : Ticket) : Decidable (pairedTicket t) := by
  unfold pairedTicket; infer_instance

/-- Every stored row satisfies the pairing invariant. -/
def pairedStore (st : Store) : Prop :=
  ∀ t ∈ st.tickets, pairedTicket t

instance (st : Store) : Decidable (pairedStore st) := by
  unfold pairedStore; infer_instance

/-- Timestamp invariant: no row was updated before it was created. -/
def tsStore (st : Store) : Prop :=
  ∀ t ∈ st.tickets, t.created_at ≤ t.updated_at

instance (st : Store) : Decidable (tsStore st) := by
  unfold tsStore; infer_instance

/-- Every stored row was created no later than the instant `now`. -/
def createdLe (st : Store) (now : Int) : Prop :=
  ∀ t ∈ st.tickets, t.created_at ≤ now

instance (st : Store) (now : Int) : Decidable (createdLe st now) := by
  unfold createdLe; infer_instance

/-- Concrete fixtures used by witnesses and counterexamples. -/
def tick1 : Ticket :=
  { id := 1, club := "A", pc := some "1", description := "broken mouse"
    status := "new", deadline_at := none, created_at := 100, updated_at := 100
    tg_chat_id := none, tg_message_id := none }

def tick2 : Ticket :=
  { id := 2, club := "B", pc := none, description := "no internet"
    status := "in_progress", deadline_at := some 50, created_at := 120
    updated_at := 130, tg_chat_id := some 77, tg_message_id := some 900 }

def st1 : Store := { tickets := [tick1], nextId := 2 }

def st2 : Store := { tickets := [tick1, tick2], nextId := 3 }

def cfg0 : Config :=
  { telegram_bot_token := "", telegram_chat_id := ""
    telegram_webhook_secret := "", cron_secret := "" }

def cfgS : Config := { cfg0 with telegram_webhook_secret := "s3cret" }

def cfgC : Config :=
  { cfg0 with telegram_bot_token := "tok", telegram_chat_id := "12345" }

def req0 : CreateReq :=
  { club := some "A", pc := some "1", description := some "broken mouse"
    due := none }

def updEmpty : TgUpdate := { message := none, callback_query := none }

def chat99 : TgChat :=
  { id := some 99, username := some "other", title := some "Other" }

def msg99 : TgMessage :=
  { chat := some chat99, message_id := some 5, text := some "/done 1" }

def cb99 : TgCallback :=
  { message := some msg99, data := some "status:1:done" }

/-! Basic store lemmas. -/

theorem mem_dbUpdate {st : Store} {t u : Ticket}
    (h : u ∈ (dbUpdate st t).tickets) : u ∈ st.tickets ∨ u = t := by
  simp only [dbUpdate, List.mem_map] at h
  obtain ⟨v, hv, hvu⟩ := h
  by_cases hid : (v.id == t.id)
  · rw [if_pos hid] at hvu
    exact Or.inr hvu.symm
  · rw [if_neg hid] at hvu
    exact Or.inl (hvu ▸ hv)

theorem dbGet_mem {st : Store} {sid : Int} {t : Ticket}
    (h : dbGet st sid = some t) : t ∈ st.tickets :=
  List.mem_of_find?_eq_some h

theorem dbGet_id {st : Store} {sid : Int} {t : Ticket}
    (h : dbGet st sid = some t) : t.id = sid := by
  have := List.find?_some h
  simpa using this

theorem find?_update (l : List Ticket) (sid : Int) (t t' : Ticket)
    (h : l.find? (fun u => u.id == sid) = some t) (ht' : t'.id = sid) :
    (l.map (fun u => if u.id == t'.id then t' else u)).find?
      (fun u => u.id == sid) = some t' := by
  induction l with
  | nil => simp at h
  | cons u us ih =>
    simp only [List.map_cons]
    by_cases hu : u.id = sid
    · have hcond : (u.id == t'.id) = true := by simp [hu, ht']
      rw [if_pos hcond]
      exact List.find?_cons_of_pos _ (by simp [ht'])
    · have hcond : ¬ (u.id == t'.id) = true := by simp [ht', hu]
      rw [if_neg hcond]
      rw [List.find?_cons_of_neg _ (by simp [hu])]
      rw [List.find?_cons_of_neg _ (by simp [hu])] at h
      exact ih h

theorem dbGet_dbUpdate {st : Store} {sid : Int} {t t' : Ticket}
    (h : dbGet st sid = some t) (ht' : t'.id = sid) :
    dbGet (dbUpdate st t') sid = some t' :=
  find?_update st.tickets sid t t' h ht'

theorem dbUpdate_length (st : Store) (t : Ticket) :
    (dbUpdate st t).tickets.length = st.tickets.length := by
  simp [dbUpdate]

theorem send_tickets_length (cfg : Config) (st : Store) (t : Ticket)
    (res : TgSendResult) :
    (send_ticket_to_tg cfg st t res).2.tickets.length = st.tickets.length := by
  unfold send_ticket_to_tg
  split
  · rfl
  · split
    · rfl
    · split
      · rfl
      · simp [dbUpdate_length]

/-! Sorting lemmas for the two query orders. -/

theorem insertDesc_length (t : Ticket) (l : List Ticket) :
    (insertDescByCreated t l).length = l.length + 1 := by
  induction l with
  | nil => rfl
  | cons u us ih =>
    unfold insertDescByCreated
    split
    · rfl
    · simp [ih]

theorem sortDesc_length (l : List Ticket) :
    (sortDescByCreated l).length = l.length := by
  induction l with
  | nil => rfl
  | cons t ts ih => simp [sortDescByCreated, insertDesc_length, ih]

theorem mem_insertAsc {u t : Ticket} {l : List Ticket}
    (h : u ∈ insertAscByCreated t l) : u = t ∨ u ∈ l := by
  induction l with
  | nil => exact Or.inl (List.mem_singleton.mp h)
  | cons v vs ih =>
    unfold insertAscByCreated at h
    split at h
    · simpa using h
    · rcases List.mem_cons.mp h with rfl | h'
      · simp
      · rcases ih h' with h'' | h''
        · exact Or.inl h''
        · exact Or.inr (List.mem_cons_of_mem _ h'')

theorem mem_sortAsc {u : Ticket} {l : List Ticket}
    (h : u ∈ sortAscByCreated l) : u ∈ l := by
  induction l with
  | nil => simpa [sortAscByCreated] using h
  | cons t ts ih =>
    rcases mem_insertAsc h with rfl | h'
    · simp
    · exact List.mem_cons_of_mem _ (ih h')

theorem countP_insertAsc (p : Ticket → Bool) (t : Ticket) (l : List Ticket) :
    (insertAscByCreated t l).countP p = (t :: l).countP p := by
  induction l with
  | nil => rfl
  | cons u us ih =>
    unfold insertAscByCreated
    split
    · rfl
    · simp only [List.countP_cons, ih]
      omega

theorem countP_sortAsc (p : Ticket → Bool) (l : List Ticket) :
    (sortAscByCreated l).countP p = l.countP p := by
  induction l with
  | nil => rfl
  | cons t ts ih =>
    simp only [sortAscByCreated, countP_insertAsc, List.countP_cons, ih]

theorem cron_fold_count (cfg : Config) (now : Int) (res : Int → TgSendResult)
    (rows : List Ticket) : ∀ (st : Store) (n : Nat),
    (rows.foldl
      (fun (acc : Store × Nat) t =>
        if needsReminder now t then
          ((send_ticket_to_tg cfg acc.1 t (res t.id)).2, acc.2 + 1)
        else acc)
      (st, n)).2 = n + rows.countP (needsReminder now) := by
  induction rows with
  | nil => intro st n; simp
  | cons t ts ih =>
    intro st n
    simp only [List.foldl_cons, List.countP_cons]
    by_cases h : needsReminder now t
    · rw [if_pos h, ih]
      simp [h]
      omega
    · rw [if_neg h, ih]
      simp [h]

/-! Claim theorems. -/

/-- C6 counterexample: with two stored tickets, a list request carrying
limit=0 (which the claim says is clamped to 1) still returns both tickets;
the same holds for limit=1.  The handler never reads the parameter. -/
theorem list_limit_not_clamped :
    (list_tickets st2 (some 0)).length = 2 ∧ (list_tickets st2 (some 1)).length = 2 := by
  decide

/-- C6 (amended): the list endpoint ignores the limit query parameter
entirely: any two limit values produce the same response, and the response
always contains every stored ticket (newest created_at first), with no
clamping to 1..500. -/
theorem list_tickets_ignores_limit (st : Store) (lim lim' : Option Int) :
    list_tickets st lim = list_tickets st lim'
    ∧ (list_tickets st lim).length = st.tickets.length :=
  ⟨rfl, by simp [list_tickets, sortDesc_length]⟩

/-- C5 counterexample: a create payload whose description is blank after
trimming is rejected with 400 and nothing is stored, contradicting the
claimed placeholder normalization. -/
theorem create_blank_description_rejected :
    create_ticket cfg0 st1
      { club := some "A", pc := some "1", description := some "   ", due := none }
      100 none = (.badRequest, st1) := by
  decide

/-- C5 (amended): a create payload whose description is blank (empty after
trimming) is rejected with 400 and the store is unchanged; no placeholder
normalization exists. -/
theorem create_blank_description_400 (cfg : Config) (st : Store)
    (req : CreateReq) (now : Int) (res : TgSendResult)
    (hdesc : pyStrip (req.description.getD "") = "") :
    create_ticket cfg st req now res = (.badRequest, st) := by
  unfold create_ticket
  rw [if_pos (Or.inr hdesc)]

/-- C5 witness. -/
theorem create_blank_description_400_witness :
    create_ticket cfg0 st2 { club := some "B", pc := none, description := some " ", due := none }
      7 none = (.badRequest, st2) :=
  create_blank_description_400 cfg0 st2
    { club := some "B", pc := none, description := some " ", due := none } 7 none (by decide)

/-- C2 counterexample: ticket 1 exists in st1, yet a transition to
"cancelled" — a member of the claimed enum — is rejected with 400 and the
store is unchanged, instead of succeeding as the claim states. -/
theorem set_status_cancelled_rejected :
    set_status cfg0 st1 1 (some "cancelled") 200 = (.badRequest, st1) := by
  decide

/-- C2 (amended): the status enum of this code is {new, in_progress, done}.
For every existing ticket, a transition to any of these three values succeeds
and stores that status; any other requested value (in particular
"cancelled") is rejected as invalid with 400, leaving the store unchanged. -/
theorem set_status_enum (cfg : Config) (st : Store) (sid : Int)
    (s bad : String) (now : Int)
    (hs : s = "new" ∨ s = "in_progress" ∨ s = "done")
    (hbad : ¬ (pyStrip bad = "new" ∨ pyStrip bad = "in_progress" ∨ pyStrip bad = "done"))
    (hex : (dbGet st sid).isSome) :
    (∃ t, set_status cfg st sid (some s) now = (.updated t, dbUpdate st t) ∧ t.status = s)
    ∧ set_status cfg st sid (some bad) now = (.badRequest, st) := by
  obtain ⟨t, ht⟩ := Option.isSome_iff_exists.mp hex
  constructor
  · have hstrip : pyStrip s = s := by
      rcases hs with rfl | rfl | rfl <;> decide
    have hval : pyStrip ((some s).getD "") = "new" ∨ pyStrip ((some s).getD "") = "in_progress"
        ∨ pyStrip ((some s).getD "") = "done" := by
      simpa [hstrip] using hs
    refine ⟨{ t with status := s, updated_at := now }, ?_, rfl⟩
    unfold set_status
    rw [if_neg (not_not_intro hval), ht]
    simp [hstrip]
  · simp only [set_status, Option.getD_some]
    rw [if_pos hbad]

/-- C2 witness. -/
theorem set_status_enum_witness :
    (∃ t, set_status cfg0 st1 1 (some "in_progress") 300 = (.updated t, dbUpdate st1 t)
      ∧ t.status = "in_progress")
    ∧ set_status cfg0 st1 1 (some "cancelled") 300 = (.badRequest, st1) :=
  set_status_enum cfg0 st1 1 "in_progress" "cancelled" 300 (Or.inr (Or.inl rfl))
    (by decide) (by decide)

/-- C4 counterexample: st1 holds one ticket with status "new", no deadline
and (necessarily) no reminder history — the table has no last_reminded_at
column at all — yet the sweep sends zero reminders and leaves the store
untouched, where the claim requires a reminder for such a ticket. -/
theorem cron_no_deadline_never_reminded :
    cron_remind cfg0 st1 "" 1000 (fun _ => none) = (.counted 0, st1) := by
  decide

/-- C4 (amended): the sweep scans tickets with status different from "done"
and sends a reminder exactly for those carrying a deadline earlier than
now + 3 hours (overdue ones on every sweep, upcoming ones on every sweep
within the window); tickets without a deadline are never reminded, and no
last_reminded_at timestamp exists or is updated. The response reports the
count of reminders sent. -/
theorem cron_remind_count (cfg : Config) (st : Store) (hdr : String)
    (now : Int) (res : Int → TgSendResult)
    (hsec : cfg.cron_secret = "" ∨ hdr = cfg.cron_secret) :
    (cron_remind cfg st hdr now res).1 =
      .counted ((st.tickets.filter (fun t => t.status ≠ "done")).countP
        (needsReminder now)) := by
  unfold cron_remind
  rw [if_neg (by rcases hsec with h | h <;> simp [h])]
  simp only []
  rw [cron_fold_count, countP_sortAsc]
  simp

/-- C4 witness. -/
theorem cron_remind_count_witness :
    (cron_remind cfg0 st2 "" 1000 (fun _ => none)).1 =
      .counted ((st2.tickets.filter (fun t => t.status ≠ "done")).countP
        (needsReminder 1000)) :=
  cron_remind_count cfg0 st2 "" 1000 (fun _ => none) (Or.inl rfl)

/-- C1: a create request with a nonblank club and description always answers
201 with a created ticket and leaves one more row in the store, for every
possible outcome `res` of the paired Telegram notification — including
`none`, which covers a failed call and an unconfigured channel alike.  The
notification outcome never surfaces as a request failure. -/
theorem create_success_isolated (cfg : Config) (st : Store) (req : CreateReq)
    (now : Int) (res : TgSendResult)
    (hclub : pyStrip (req.club.getD "") ≠ "")
    (hdesc : pyStrip (req.description.getD "") ≠ "") :
    (∃ t, (create_ticket cfg st req now res).1 = .created t)
    ∧ (create_ticket cfg st req now res).2.tickets.length = st.tickets.length + 1 := by
  unfold create_ticket
  rw [if_neg (by tauto)]
  constructor
  · exact ⟨_, rfl⟩
  · simp [send_tickets_length]

/-- C1 witness. -/
theorem create_success_isolated_witness :
    (∃ t, (create_ticket cfgC st1 req0 7 none).1 = .created t)
    ∧ (create_ticket cfgC st1 req0 7 none).2.tickets.length = st1.tickets.length + 1 :=
  create_success_isolated cfgC st1 req0 7 none (by decide) (by decide)

theorem handleMessage_fst (cfg : Config) (st : Store) (msg : TgMessage)
    (now : Int) : (handleMessage cfg st msg now).1 = .ok := by
  unfold handleMessage
  dsimp only
  repeat' split
  all_goals rfl

theorem handleCallback_fst (cfg : Config) (st : Store) (cq : TgCallback)
    (now : Int) : (handleCallback cfg st cq now).1 = .ok := by
  unfold handleCallback
  dsimp only
  repeat' split
  all_goals rfl

/-- C3: the webhook endpoint acknowledges every processed update with
200 "ok" whatever happens inside (disallowed chat, malformed callback token,
unknown action, invalid status, missing ticket, plain commands); the single
exception is a configured shared secret whose header does not match, which
answers 403 "forbidden" with the store untouched. -/
theorem webhook_always_ack (cfg : Config) (st : Store) (hdr : String)
    (upd : TgUpdate) (now : Int) :
    (cfg.telegram_webhook_secret ≠ "" ∧ hdr ≠ cfg.telegram_webhook_secret →
      telegram_webhook cfg st hdr upd now = (.forbidden, st))
    ∧ ((cfg.telegram_webhook_secret = "" ∨ hdr = cfg.telegram_webhook_secret) →
      (telegram_webhook cfg st hdr upd now).1 = .ok) := by
  constructor
  · intro hcond
    unfold telegram_webhook
    rw [if_pos hcond]
  · intro hok
    have hnc : ¬ (cfg.telegram_webhook_secret ≠ "" ∧ hdr ≠ cfg.telegram_webhook_secret) := by
      rcases hok with h | h <;> simp [h]
    unfold telegram_webhook
    rw [if_neg hnc]
    cases hm : upd.message with
    | some msg => exact handleMessage_fst cfg st msg now
    | none =>
      cases hcq : upd.callback_query with
      | some cq => exact handleCallback_fst cfg st cq now
      | none => rfl

/-- C3 witness. -/
theorem webhook_always_ack_witness :
    telegram_webhook cfgS st1 "wrong" updEmpty 0 = (.forbidden, st1)
    ∧ (telegram_webhook cfgS st1 "s3cret" updEmpty 0).1 = .ok :=
  ⟨(webhook_always_ack cfgS st1 "wrong" updEmpty 0).1 ⟨by decide, by decide⟩,
   (webhook_always_ack cfgS st1 "s3cret" updEmpty 0).2 (Or.inr rfl)⟩

/-- C9: transitioning an existing ticket to "done" twice in a row leaves it
in "done", and the stored updated_at is the second call's time: the second
call refreshes updated_at even though the status did not change, so only it
determines the final value. -/
theorem transition_done_idempotent (cfg cfg2 : Config) (st : Store)
    (sid : Int) (time1 time2 : Int)
    (hex : (dbGet st sid).isSome) :
    ∃ u, dbGet (set_status cfg2 (set_status cfg st sid (some "done") time1).2
        sid (some "done") time2).2 sid = some u
      ∧ u.status = "done" ∧ u.updated_at = time2 := by
  obtain ⟨t, ht⟩ := Option.isSome_iff_exists.mp hex
  have hid : t.id = sid := dbGet_id ht
  have hdone : pyStrip ((some "done").getD "") = "done" := by decide
  have hdone2 : pyStrip ("done") = "done" := by decide
  have hval : ¬ ¬ (pyStrip ((some "done").getD "") = "new"
      ∨ pyStrip ((some "done").getD "") = "in_progress"
      ∨ pyStrip ((some "done").getD "") = "done") := by decide
  have h1 : (set_status cfg st sid (some "done") time1).2 =
      dbUpdate st { t with status := "done", updated_at := time1 } := by
    unfold set_status
    rw [if_neg hval, ht]
    simp [hdone, hdone2]
  have hget1 : dbGet (set_status cfg st sid (some "done") time1).2 sid =
      some { t with status := "done", updated_at := time1 } := by
    rw [h1]
    exact dbGet_dbUpdate ht hid
  have h2 : (set_status cfg2 (set_status cfg st sid (some "done") time1).2
      sid (some "done") time2).2 =
      dbUpdate (set_status cfg st sid (some "done") time1).2
        { t with status := "done", updated_at := time2 } := by
    generalize hS : (set_status cfg st sid (some "done") time1).2 = S at hget1 ⊢
    unfold set_status
    rw [if_neg hval, hget1]
    simp [hdone, hdone2]
  refine ⟨{ t with status := "done", updated_at := time2 }, ?_, rfl, rfl⟩
  rw [h2]
  exact dbGet_dbUpdate hget1 hid

/-- C9 witness. -/
theorem transition_done_idempotent_witness :
    ∃ u, dbGet (set_status cfg0 (set_status cfg0 st1 1 (some "done") 150).2
        1 (some "done") 160).2 1 = some u
      ∧ u.status = "done" ∧ u.updated_at = 160 :=
  transition_done_idempotent cfg0 cfg0 st1 1 150 160 (by decide)

/-! Preservation of a per-ticket invariant by every operation.  The three
closure hypotheses cover the only row shapes the code ever commits: a status
update with a refreshed updated_at, a recorded Telegram reference, and a
freshly created row. -/

theorem storeInv_dbUpdate {P : Ticket → Prop} {st : Store} {t : Ticket}
    (hP : ∀ u ∈ st.tickets, P u) (ht : P t) :
    ∀ u ∈ (dbUpdate st t).tickets, P u := by
  intro u hu
  rcases mem_dbUpdate hu with h | rfl
  · exact hP u h
  · exact ht

theorem storeInv_send {P : Ticket → Prop}
    (htg : ∀ t c m, P t → P { t with tg_chat_id := some c, tg_message_id := some m })
    (cfg : Config) (st : Store) (t : Ticket) (res : TgSendResult)
    (hP : ∀ u ∈ st.tickets, P u) (ht : P t) :
    ∀ u ∈ (send_ticket_to_tg cfg st t res).2.tickets, P u := by
  unfold send_ticket_to_tg
  split
  · exact hP
  · split
    · exact hP
    · split
      · exact hP
      · exact storeInv_dbUpdate hP (htg t _ _ ht)

theorem storeInv_applyCommand {P : Ticket → Prop} {now : Int}
    (hstat : ∀ t s, P t → P { t with status := s, updated_at := now })
    (st : Store) (txt s : String)
    (hP : ∀ u ∈ st.tickets, P u) :
    ∀ u ∈ (applyCommandStatus st txt s now).tickets, P u := by
  unfold applyCommandStatus
  dsimp only
  split
  · split
    · split
      · exact hP
      · next t heq => exact storeInv_dbUpdate hP (hstat t _ (hP t (dbGet_mem heq)))
    · exact hP
  · exact hP

theorem storeInv_setStatus {P : Ticket → Prop} {now : Int}
    (hstat : ∀ t s, P t → P { t with status := s, updated_at := now })
    (cfg : Config) (st : Store) (sid : Int) (body : Option String)
    (hP : ∀ u ∈ st.tickets, P u) :
    ∀ u ∈ (set_status cfg st sid body now).2.tickets, P u := by
  unfold set_status
  dsimp only
  split
  · exact hP
  · split
    · exact hP
    · next t heq => exact storeInv_dbUpdate hP (hstat t _ (hP t (dbGet_mem heq)))

theorem storeInv_handleMessage {P : Ticket → Prop} {now : Int}
    (hstat : ∀ t s, P t → P { t with status := s, updated_at := now })
    (cfg : Config) (st : Store) (msg : TgMessage)
    (hP : ∀ u ∈ st.tickets, P u) :
    ∀ u ∈ (handleMessage cfg st msg now).2.tickets, P u := by
  unfold handleMessage
  dsimp only
  split
  · exact hP
  · split
    · exact hP
    · split
      · exact hP
      · split
        · exact storeInv_applyCommand hstat st _ _ hP
        · split
          · exact storeInv_applyCommand hstat st _ _ hP
          · exact hP

theorem storeInv_handleCallback {P : Ticket → Prop} {now : Int}
    (hstat : ∀ t s, P t → P { t with status := s, updated_at := now })
    (cfg : Config) (st : Store) (cq : TgCallback)
    (hP : ∀ u ∈ st.tickets, P u) :
    ∀ u ∈ (handleCallback cfg st cq now).2.tickets, P u := by
  unfold handleCallback
  dsimp only
  split
  · exact hP
  · split
    · exact hP
    · split
      · split
        · exact hP
        · split
          · exact hP
          · split
            · exact hP
            · next t heq => exact storeInv_dbUpdate hP (hstat t _ (hP t (dbGet_mem heq)))
      · exact hP

theorem storeInv_webhook {P : Ticket → Prop} {now : Int}
    (hstat : ∀ t s, P t → P { t with status := s, updated_at := now })
    (cfg : Config) (st : Store) (hdr : String) (upd : TgUpdate)
    (hP : ∀ u ∈ st.tickets, P u) :
    ∀ u ∈ (telegram_webhook cfg st hdr upd now).2.tickets, P u := by
  unfold telegram_webhook
  split
  · exact hP
  · split
    · next msg _ => exact storeInv_handleMessage hstat cfg st msg hP
    · split
      · next cq _ => exact storeInv_handleCallback hstat cfg st cq hP
      · exact hP

theorem storeInv_cronFold {P : Ticket → Prop}
    (htg : ∀ t c m, P t → P { t with tg_chat_id := some c, tg_message_id := some m })
    (cfg : Config) (now : Int) (res : Int → TgSendResult)
    (rows : List Ticket) : ∀ (st : Store) (n : Nat),
    (∀ u ∈ st.tickets, P u) → (∀ t ∈ rows, P t) →
    ∀ u ∈ (rows.foldl
      (fun (acc : Store × Nat) t =>
        if needsReminder now t then
          ((send_ticket_to_tg cfg acc.1 t (res t.id)).2, acc.2 + 1)
        else acc)
      (st, n)).1.tickets, P u := by
  induction rows with
  | nil => intro st n hP _; exact hP
  | cons t ts ih =>
    intro st n hP hrows
    simp only [List.foldl_cons]
    by_cases h : needsReminder now t
    · rw [if_pos h]
      exact ih _ _
        (storeInv_send htg cfg st t (res t.id) hP (hrows t (List.mem_cons_self t ts)))
        (fun v hv => hrows v (List.mem_cons_of_mem _ hv))
    · rw [if_neg h]
      exact ih _ _ hP (fun v hv => hrows v (List.mem_cons_of_mem _ hv))

theorem storeInv_cron {P : Ticket → Prop}
    (htg : ∀ t c m, P t → P { t with tg_chat_id := some c, tg_message_id := some m })
    (cfg : Config) (st : Store) (hdr : String) (now : Int)
    (res : Int → TgSendResult)
    (hP : ∀ u ∈ st.tickets, P u) :
    ∀ u ∈ (cron_remind cfg st hdr now res).2.tickets, P u := by
  unfold cron_remind
  split
  · exact hP
  · dsimp only
    apply storeInv_cronFold htg cfg now res _ st 0 hP
    intro t ht
    exact hP t (List.mem_filter.mp (mem_sortAsc ht)).1

theorem storeInv_create {P : Ticket → Prop} {now : Int}
    (htg : ∀ t c m, P t → P { t with tg_chat_id := some c, tg_message_id := some m })
    (hnew : ∀ i c p d dl, P
      { id := i, club := c, pc := p, description := d, status := "new"
        deadline_at := dl, created_at := now, updated_at := now
        tg_chat_id := none, tg_message_id := none })
    (cfg : Config) (st : Store) (req : CreateReq) (res : TgSendResult)
    (hP : ∀ u ∈ st.tickets, P u) :
    ∀ u ∈ (create_ticket cfg st req now res).2.tickets, P u := by
  unfold create_ticket
  dsimp only
  split
  · exact hP
  · refine storeInv_send htg cfg _ _ res ?_ (hnew _ _ _ _ _)
    intro u hu
    rcases List.mem_append.mp hu with h | h
    · exact hP u h
    · rw [List.mem_singleton] at h
      subst h
      exact hnew _ _ _ _ _

theorem storeInv_ops (P : Ticket → Prop) (cfg : Config) (st : Store)
    (req : CreateReq) (sid : Int) (body : Option String) (hdr hdr2 : String)
    (upd : TgUpdate) (now : Int) (res : TgSendResult) (cres : Int → TgSendResult)
    (hP : ∀ u ∈ st.tickets, P u)
    (hstat : ∀ t s, P t → P { t with status := s, updated_at := now })
    (htg : ∀ t c m, P t → P { t with tg_chat_id := some c, tg_message_id := some m })
    (hnew : ∀ i c p d dl, P
      { id := i, club := c, pc := p, description := d, status := "new"
        deadline_at := dl, created_at := now, updated_at := now
        tg_chat_id := none, tg_message_id := none }) :
    (∀ u ∈ (create_ticket cfg st req now res).2.tickets, P u)
    ∧ (∀ u ∈ (set_status cfg st sid body now).2.tickets, P u)
    ∧ (∀ u ∈ (telegram_webhook cfg st hdr upd now).2.tickets, P u)
    ∧ (∀ u ∈ (cron_remind cfg st hdr2 now cres).2.tickets, P u) :=
  ⟨storeInv_create htg hnew cfg st req res hP,
   storeInv_setStatus hstat cfg st sid body hP,
   storeInv_webhook hstat cfg st hdr upd hP,
   storeInv_cron htg cfg st hdr2 now cres hP⟩

/-- C7: if every stored ticket has its Telegram reference fully present or
fully absent, then after any create, status update, webhook dispatch or
reminder sweep the property still holds: the code only ever commits both
halves together (from one sendMessage result) or touches neither. -/
theorem notification_ref_paired (cfg : Config) (st : Store) (req : CreateReq)
    (sid : Int) (body : Option String) (hdr hdr2 : String) (upd : TgUpdate)
    (now : Int) (res : TgSendResult) (cres : Int → TgSendResult)
    (h : pairedStore st) :
    pairedStore (create_ticket cfg st req now res).2
    ∧ pairedStore (set_status cfg st sid body now).2
    ∧ pairedStore (telegram_webhook cfg st hdr upd now).2
    ∧ pairedStore (cron_remind cfg st hdr2 now cres).2 :=
  storeInv_ops pairedTicket cfg st req sid body hdr hdr2 upd now res cres h
    (fun _ _ ht => ht) (fun _ _ _ _ => rfl) (fun _ _ _ _ _ => rfl)

/-- C7 witness. -/
theorem notification_ref_paired_witness :
    pairedStore (create_ticket cfg0 st2 req0 200 none).2
    ∧ pairedStore (set_status cfg0 st2 1 (some "done") 200).2
    ∧ pairedStore (telegram_webhook cfg0 st2 "" updEmpty 200).2
    ∧ pairedStore (cron_remind cfg0 st2 "" 200 (fun _ => none)).2 :=
  notification_ref_paired cfg0 st2 req0 1 (some "done") "" "" updEmpty 200 none
    (fun _ => none) (by decide)

/-- C8: if every stored ticket satisfies created_at <= updated_at and was
created no later than the current instant, then after create (which stamps
both fields with the same instant) and after every mutation (which refreshes
updated_at to the current instant while created_at is never written) the
inequality still holds for every stored ticket. -/
theorem updated_at_ge_created_at (cfg : Config) (st : Store) (req : CreateReq)
    (sid : Int) (body : Option String) (hdr hdr2 : String) (upd : TgUpdate)
    (now : Int) (res : TgSendResult) (cres : Int → TgSendResult)
    (h1 : tsStore st) (h2 : createdLe st now) :
    tsStore (create_ticket cfg st req now res).2
    ∧ tsStore (set_status cfg st sid body now).2
    ∧ tsStore (telegram_webhook cfg st hdr upd now).2
    ∧ tsStore (cron_remind cfg st hdr2 now cres).2 := by
  have key := storeInv_ops
    (fun t => t.created_at ≤ t.updated_at ∧ t.created_at ≤ now)
    cfg st req sid body hdr hdr2 upd now res cres
    (fun t ht => ⟨h1 t ht, h2 t ht⟩)
    (fun t s ht => ⟨ht.2, ht.2⟩)
    (fun t c m ht => ht)
    (fun i c p d dl => ⟨le_refl now, le_refl now⟩)
  exact ⟨fun t ht => (key.1 t ht).1, fun t ht => (key.2.1 t ht).1,
    fun t ht => (key.2.2.1 t ht).1, fun t ht => (key.2.2.2 t ht).1⟩

theorem chat_allowed_false (cfg : Config) (chat : TgChat)
    (hcfg : cfg.telegram_chat_id ≠ "")
    (hid : chatIdStr chat ≠ cfg.telegram_chat_id)
    (huser : ∀ u, chat.username = some u → ("@" ++ u) ≠ cfg.telegram_chat_id)
    (htitle : ∀ s, chat.title = some s → s ≠ cfg.telegram_chat_id) :
    chat_allowed cfg chat = false := by
  obtain ⟨cid, cu, cti⟩ := chat
  unfold chat_allowed
  rw [if_neg hcfg]
  dsimp only
  cases cu with
  | none =>
    cases cti with
    | none =>
      simp only [List.elem_eq_mem, List.mem_singleton, List.append_nil,
        decide_eq_false_iff_not]
      exact Ne.symm hid
    | some s =>
      by_cases hs : s = ""
      · simp [hs, chatIdStr]
        exact Ne.symm hid
      · simp [hs, chatIdStr, Ne.symm (htitle s rfl)]
        exact Ne.symm hid
  | some u =>
    cases cti with
    | none =>
      by_cases hu : u = ""
      · simp [hu, chatIdStr]
        exact Ne.symm hid
      · simp [hu, chatIdStr, Ne.symm (huser u rfl)]
        exact Ne.symm hid
    | some s =>
      by_cases hu : u = "" <;> by_cases hs : s = ""
      · simp [hu, hs, chatIdStr]
        exact Ne.symm hid
      · simp [hu, hs, chatIdStr, Ne.symm (htitle s rfl)]
        exact Ne.symm hid
      · simp [hu, hs, chatIdStr, Ne.symm (huser u rfl)]
        exact Ne.symm hid
      · simp [hu, hs, chatIdStr, Ne.symm (huser u rfl), Ne.symm (htitle s rfl)]
        exact Ne.symm hid

/-- C10: when a target chat is configured, a webhook update whose
originating chat matches it neither by decimal id, nor by @username, nor by
title is acknowledged with 200 "ok" and the store is completely unchanged —
both for a text-command message and for a button callback.  Tickets are thus
mutable only from the configured chat. -/
theorem foreign_chat_cannot_mutate (cfg : Config) (st : Store) (chat : TgChat)
    (now : Int)
    (hcfg : cfg.telegram_chat_id ≠ "")
    (hid : chatIdStr chat ≠ cfg.telegram_chat_id)
    (huser : ∀ u, chat.username = some u → ("@" ++ u) ≠ cfg.telegram_chat_id)
    (htitle : ∀ s, chat.title = some s → s ≠ cfg.telegram_chat_id) :
    (∀ msg : TgMessage, msg.chat = some chat → ∀ cb,
      telegram_webhook cfg st cfg.telegram_webhook_secret
        { message := some msg, callback_query := cb } now = (.ok, st))
    ∧ (∀ cq : TgCallback, ∀ m : TgMessage, cq.message = some m →
      m.chat = some chat →
      telegram_webhook cfg st cfg.telegram_webhook_secret
        { message := none, callback_query := some cq } now = (.ok, st)) := by
  have hfalse := chat_allowed_false cfg chat hcfg hid huser htitle
  have hsec : ¬ (cfg.telegram_webhook_secret ≠ ""
      ∧ cfg.telegram_webhook_secret ≠ cfg.telegram_webhook_secret) := by
    simp
  constructor
  · intro msg hmsg cb
    unfold telegram_webhook
    rw [if_neg hsec]
    show handleMessage cfg st msg now = (.ok, st)
    unfold handleMessage
    rw [hmsg]
    simp [hfalse]
  · intro cq m hcq hm
    unfold telegram_webhook
    rw [if_neg hsec]
    show handleCallback cfg st cq now = (.ok, st)
    unfold handleCallback
    rw [hcq]
    dsimp only [Option.getD_some]
    rw [hm]
    simp [hfalse]

/-- C10 witness. -/
theorem foreign_chat_cannot_mutate_witness :
    telegram_webhook cfgC st1 cfgC.telegram_webhook_secret
      { message := some msg99, callback_query := none } 7 = (.ok, st1)
    ∧ telegram_webhook cfgC st1 cfgC.telegram_webhook_secret
      { message := none, callback_query := some cb99 } 7 = (.ok, st1) :=
  ⟨(foreign_chat_cannot_mutate cfgC st1 chat99 7 (by decide) (by decide)
      (fun u h => by
        have hu : u = "other" := by simpa [chat99] using h.symm
        subst hu; decide)
      (fun s h => by
        have hs : s = "Other" := by simpa [chat99] using h.symm
        subst hs; decide)).1 msg99 rfl none,
   (foreign_chat_cannot_mutate cfgC st1 chat99 7 (by decide) (by decide)
      (fun u h => by
        have hu : u = "other" := by simpa [chat99] using h.symm
        subst hu; decide)
      (fun s h => by
        have hs : s = "Other" := by simpa [chat99] using h.symm
        subst hs; decide)).2 cb99 msg99 rfl rfl⟩

/-- C8 witness. -/
theorem updated_at_ge_created_at_witness :
    tsStore (create_ticket cfg0 st2 req0 200 none).2
    ∧ tsStore (set_status cfg0 st2 1 (some "done") 200).2
    ∧ tsStore (telegram_webhook cfg0 st2 "" updEmpty 200).2
    ∧ tsStore (cron_remind cfg0 st2 "" 200 (fun _ => none)).2 :=
  updated_at_ge_created_at cfg0 st2 req0 1 (some "done") "" "" updEmpty 200 none
    (fun _ => none) (by decide) (by decide)

end Pyatak
